import Mathlib

/-!
Shallow embedding of the computational core of the wealth-compass
personal-finance dashboard.

Conventions used throughout this development:
* JavaScript numbers are modelled as exact rationals (`ℚ`) where the code
  performs only field arithmetic, and as reals (`ℝ`) where it uses
  transcendental functions (`Math.exp`, `Math.log`, `Math.sqrt`, `Math.cos`).
* `null` / `undefined` fields are modelled with `Option`.
* JavaScript truthiness tests on numbers (`x || y`, `if (x)`) are modelled
  explicitly: `0` (and absent values) are falsy.
* `Math.round x` is `⌊x + 1/2⌋` (JavaScript rounds half-way cases up).
* Side effects (toast notifications, the `fetchData` refetch, cache writes,
  network fetches) are modelled as explicit components of a returned record;
  the outcome of a backend or network call is an explicit input.
-/

namespace WealthCompass

/-! ## Data model (src/hooks/useFinanceData.ts, src/types) -/

/-- A cash-flow transaction row: `type` is `"income"` or `"expense"`. -/
structure Transaction where
  type : String
  amount : ℚ

/-- An investment row. `currentValue` is the client-computed price cache;
`none` models a `null`/`undefined` cache. -/
structure Investment where
  currentValue : Option ℚ
  costBasis : ℚ
  currency : Option String

/-- A crypto holding row. -/
structure CryptoHolding where
  quantity : ℚ
  currentPrice : ℚ

/-- A liability row. -/
structure Liability where
  currentBalance : ℚ
  currency : Option String

/-- A manual liquidity (cash) account row. -/
structure LiquidityAccount where
  balance : ℚ
  currency : Option String

/-- The in-memory data state held by the `useFinanceData` hook. -/
structure FinancialData where
  transactions : List Transaction
  liquidity : List LiquidityAccount
  investments : List Investment
  crypto : List CryptoHolding
  liabilities : List Liability

/-- The record returned by `calculateTotals`. -/
structure Totals where
  totalLiquidity : ℚ
  totalInvestments : ℚ
  totalCrypto : ℚ
  totalAssets : ℚ
  totalLiabilities : ℚ
  netWorth : ℚ

/-- JavaScript `a || b` for an optional number `a`: `0`, `null` and
`undefined` are falsy, any other number is truthy. -/
def jsOr (a : Option ℚ) (b : ℚ) : ℚ :=
  match a with
  | none => b
  | some x => if x = 0 then b else x

/-- JavaScript `convertFn ? convertFn(value, currency) : value` — the local `convert`
closure at the top of `calculateTotals`. -/
def applyConvert (convertFn : Option (ℚ → Option String → ℚ))
    (v : ℚ) (c : Option String) : ℚ :=
  match convertFn with
  | some f => f v c
  | none => v

/-- Embedding of `calculateTotals` from `src/hooks/useFinanceData.ts` (lines 358–387):
total liquidity is `SUM(income) − SUM(expense)` over the transactions table
(transactions are assumed to be in EUR/base), investments contribute
`currentValue || costBasis`, crypto contributes `quantity * currentPrice`
in USD, and liabilities contribute `currentBalance`.  The `reduce` calls
are modelled by `List.foldl` with accumulator starting at `0`. -/
def calculateTotals (convertFn : Option (ℚ → Option String → ℚ))
    (data : FinancialData) : Totals :=
  let convert := applyConvert convertFn
  let totalIncome := (data.transactions.filter (fun t => t.type == "income")).foldl
    (fun sum t => sum + convert t.amount (some "EUR")) 0
  let totalExpenses := (data.transactions.filter (fun t => t.type == "expense")).foldl
    (fun sum t => sum + convert t.amount (some "EUR")) 0
  let cashBalance := totalIncome - totalExpenses
  let totalLiquidity := cashBalance
  let totalInvestments := data.investments.foldl
    (fun sum i => sum + convert (jsOr i.currentValue i.costBasis) i.currency) 0
  let totalCrypto := data.crypto.foldl
    (fun sum c => sum + convert (c.quantity * c.currentPrice) (some "USD")) 0
  let totalAssets := totalLiquidity + totalInvestments + totalCrypto
  let totalLiabilities := data.liabilities.foldl
    (fun sum l => sum + convert l.currentBalance l.currency) 0
  let netWorth := totalAssets - totalLiabilities
  ⟨totalLiquidity, totalInvestments, totalCrypto, totalAssets, totalLiabilities, netWorth⟩

/-- The converted sum of the current balances of a list of liabilities, as the
specification phrases it. -/
def liabilitiesConvertedSum (convert : ℚ → Option String → ℚ)
    (ls : List Liability) : ℚ :=
  (ls.map (fun l => convert l.currentBalance l.currency)).sum

/-- The amount a single investment row contributes to `totalInvestments`:
the converted `currentValue || costBasis`. -/
def investmentContribution (convert : ℚ → Option String → ℚ)
    (i : Investment) : ℚ :=
  convert (jsOr i.currentValue i.costBasis) i.currency

/-! ## FIRE calculator (src/components/calculations/FIRECalculator.tsx) -/

/-- Embedding of `const fireNumber = annualExpenses / (swr / 100);` (line 38). -/
def fireNumber (annualExpenses swr : ℚ) : ℚ :=
  annualExpenses / (swr / 100)

/-! ## Currency conversion (src/contexts/FinanceContext.tsx, convertCurrency) -/

/-- Embedding of `convertCurrency` from the settings/finance context: the loaded rate
table is `rates : Option (String → Option ℚ)` (`none` when no table has
been fetched); the guard `currencyRates && currencyRates[sourceCurrency]`
and the inner `if (rate)` are JavaScript truthiness tests, so a stored
rate of `0` falls through to the no-op fallback. -/
def convertCurrency (baseCurrency : String) (rates : Option (String → Option ℚ))
    (value : ℚ) (sourceCurrency : Option String) : ℚ :=
  match sourceCurrency with
  | none => value
  | some src =>
    if src = baseCurrency then value
    else
      match rates with
      | none => value
      | some table =>
        match table src with
        | none => value
        | some rate => if rate = 0 then value else value / rate

/-! ## Backend write actions (src/hooks/useFinanceData.ts)

Each action is modelled as a pure transition: the outcome of the
`supabase.…insert(…)` call is an explicit boolean input `insertError`, and
the effects are returned explicitly — the (unchanged or changed) local
state, the list of toast messages raised, and whether `fetchData()` was
invoked to refetch. None of these actions ever calls `setData` directly,
so the state component is the input state on every path; on success they
trigger a refetch instead. -/

/-- The effects of one write action. -/
structure ActionResult where
  state : FinancialData
  toasts : List String
  didRefetch : Bool

/-- Embedding of `addInvestment` (lines 185–222): bail out when there is no user; on an
insert error, toast `Failed to save investment` and return early (no state
change, no refetch); on success optionally log a fee transaction (toasting
`Trading fee logged to Cash Flow` when `fees > 0`) and call `fetchData()`. -/
def addInvestment (hasUser insertError : Bool) (fees : ℚ)
    (s : FinancialData) : ActionResult :=
  if !hasUser then ⟨s, [], false⟩
  else if insertError then ⟨s, ["Failed to save investment"], false⟩
  else if 0 < fees then ⟨s, ["Trading fee logged to Cash Flow"], true⟩
  else ⟨s, [], true⟩

/-- Embedding of `addCrypto` (lines 242–273): same shape as `addInvestment` with the
message `Failed to save crypto`. -/
def addCrypto (hasUser insertError : Bool) (fees : ℚ)
    (s : FinancialData) : ActionResult :=
  if !hasUser then ⟨s, [], false⟩
  else if insertError then ⟨s, ["Failed to save crypto"], false⟩
  else if 0 < fees then ⟨s, ["Trading fee logged to Cash Flow"], true⟩
  else ⟨s, [], true⟩

/-- Embedding of `takeSnapshot` (lines 390–411): computes `calculateTotals convertFn`
on the current state and attempts to insert the snapshot row (the second
component is the totals of the attempted payload, `none` when no user). On an
insert error it toasts `Failed to save snapshot` and performs no state
change and no refetch; on success it toasts and refetches. -/
def takeSnapshot (hasUser insertError : Bool)
    (convertFn : Option (ℚ → Option String → ℚ))
    (s : FinancialData) : ActionResult × Option Totals :=
  if !hasUser then (⟨s, [], false⟩, none)
  else
    let totals := calculateTotals convertFn s
    if insertError then (⟨s, ["Failed to save snapshot"], false⟩, some totals)
    else (⟨s, ["Snapshot saved to history"], true⟩, some totals)

/-! ## Compound interest projector
(src/components/dashboard/CryptoCharts.tsx, `CompoundInterestCalculator`,
lines 210–231) -/

/-- JavaScript `Math.round`: round to the nearest integer, half-way cases
rounded up (towards `+∞`). -/
def jsRound (x : ℚ) : ℤ := ⌊x + 1/2⌋

/-- One yearly chart record pushed by the loop of the calculator. -/
structure YearRecord where
  year : ℕ
  balance : ℤ
  contributed : ℤ
  interest : ℤ
deriving DecidableEq

/-- One monthly step of the inner loop on the pair
(`currentBalance`, `totalContributed`):
`currentBalance += C; currentBalance *= (1 + (r / 100) / 12);
totalContributed += C`. -/
def ciMonthStep (C r : ℚ) (s : ℚ × ℚ) : ℚ × ℚ :=
  ((s.1 + C) * (1 + r / 100 / 12), s.2 + C)

/-- The (`currentBalance`, `totalContributed`) state after `m` monthly
steps, starting from (`initialPrincipal`, `initialPrincipal`). -/
def ciStateAfter (P C r : ℚ) : ℕ → ℚ × ℚ
  | 0 => (P, P)
  | m + 1 => ciMonthStep C r (ciStateAfter P C r m)

/-- The `data` array computed by the `useMemo` in
`CompoundInterestCalculator`: for `year = 0 .. years` it pushes
`{year, balance: Math.round(b), contributed: Math.round(t),
interest: Math.round(b - t)}` where `(b, t)` is the state at the top of
iteration `year`, i.e. after `12 * year` monthly steps. -/
def compoundInterestData (P C r : ℚ) (years : ℕ) : List YearRecord :=
  (List.range (years + 1)).map (fun y =>
    let s := ciStateAfter P C r (12 * y)
    ⟨y, jsRound s.1, jsRound s.2, jsRound (s.1 - s.2)⟩)

/-! ## Batch crypto price cache (src/lib/api.ts, `getBatchCryptoPrices`) -/

/-- One element of the `items` argument of `getBatchCryptoPrices`. -/
structure CryptoRequestItem where
  symbol : String
  coinId : Option String

/-- The JSON value stored under the crypto-cache localStorage key:
a timestamp (ms) and a price record, modelled as an association list. -/
structure CachedCryptoData where
  timestamp : ℤ
  prices : List (String × ℚ)

/-- The constant `CACHE_DURATION = 5 * 60 * 1000` milliseconds. -/
def CACHE_DURATION : ℤ := 5 * 60 * 1000

/-- JavaScript property read `record[key]` on an association list:
`none` models `undefined`. -/
def lookupPrice (prices : List (String × ℚ)) (id : String) : Option ℚ :=
  (prices.find? (fun p => p.1 == id)).map (fun p => p.2)

/-- JavaScript `Set` insertion: keeps first-insertion order and
drops duplicates. -/
def jsSetAdd (acc : List String) (x : String) : List String :=
  if x ∈ acc then acc else acc ++ [x]

/-- The `uniqueIds` set built by the `items.forEach` loop: items without a
stored `coinId` are skipped (the code deliberately does not guess). The
resulting list is `Array.from(uniqueIds)` in insertion order. -/
def uniqueCoinIds (items : List CryptoRequestItem) : List String :=
  items.foldl
    (fun acc it =>
      match it.coinId with
      | some cid => jsSetAdd acc cid
      | none => acc) []

/-- The outcome of the CoinGecko batch HTTP call, an explicit input:
a 429 rate limit, any other failure (non-ok status or thrown error), or a
parsed JSON body mapping coin ids to USD prices. -/
inductive FetchOutcome where
  | rateLimited
  | failed
  | ok (data : List (String × ℚ))

/-- The effects of one `getBatchCryptoPrices` call: the returned price
record, whether a network fetch was performed, and the cache entry
written to localStorage (if any). -/
structure BatchResult where
  result : List (String × ℚ)
  didFetch : Bool
  cacheWritten : Option CachedCryptoData

/-- The per-id filtering loop `ids.forEach(id => { if (m[id]) out[id] = m[id] })`
used both to restrict a cache hit to the requested ids and to parse the
fetch response: an id is kept only when the looked-up price is truthy
(present and non-zero). -/
def filterPricesFor (ids : List String) (prices : List (String × ℚ)) :
    List (String × ℚ) :=
  ids.filterMap (fun id =>
    match lookupPrice prices id with
    | some p => if p = 0 then none else some (id, p)
    | none => none)

/-- Embedding of `getBatchCryptoPrices` (src/lib/api.ts lines 74–178). Here `stored` models
`localStorage.getItem` + `JSON.parse`: `none` = no stored item,
`some none` = stored but unparseable, `some (some c)` = parsed cache `c`.
With no requested ids it returns `{}` at once. Otherwise, when
`forceRefresh` is false and a parsed cache entry younger than
`CACHE_DURATION` exists, it returns the cache filtered to the requested
ids without fetching — the second, unfiltered `return cached.prices` in the code
sits after this `return` and is dead. On the fetch path a 429 or a failure
returns `{}`; a parsed body is filtered by the same truthiness loop and
written back to the cache with the current timestamp. -/
def getBatchCryptoPrices (items : List CryptoRequestItem) (forceRefresh : Bool)
    (now : ℤ) (stored : Option (Option CachedCryptoData))
    (fetch : FetchOutcome) : BatchResult :=
  let idsArray := uniqueCoinIds items
  if idsArray.isEmpty then ⟨[], false, none⟩
  else
    let cacheHit : Option (List (String × ℚ)) :=
      if forceRefresh then none
      else
        match stored with
        | some (some cached) =>
          if now - cached.timestamp < CACHE_DURATION then
            some (filterPricesFor idsArray cached.prices)
          else none
        | _ => none
    match cacheHit with
    | some result => ⟨result, false, none⟩
    | none =>
      match fetch with
      | .rateLimited => ⟨[], true, none⟩
      | .failed => ⟨[], true, none⟩
      | .ok data =>
        let prices := filterPricesFor idsArray data
        ⟨prices, true, some ⟨now, prices⟩⟩

/-! ## Monte Carlo portfolio simulator
(src/components/…, `MonteCarloSimulation`: `randn_bm`, `runSimulation`,
`chartData`)

`Math.random()` is modelled as a stream `rand : ℕ → ℝ` of uniform draws
consumed strictly in order. The `while (u === 0) u = Math.random();`
re-roll loops only discard zero draws (each re-roll renames the tail of
the stream), so the embedding lets each `randn_bm` call consume exactly
the next two draws; call number `k` uses draws `2*k` and `2*k+1`. Calls
happen path-major: path `sim` of an `N`-year run makes its month-`m` call
(`m = 0 .. 12N-1`) as global call `sim * 12N + m`. -/

/-- Box–Muller transform:
`Math.sqrt(-2.0 * Math.log(u)) * Math.cos(2.0 * Math.PI * v)`. -/
noncomputable def randn_bm (u v : ℝ) : ℝ :=
  Real.sqrt (-2 * Real.log u) * Real.cos (2 * Real.pi * v)

/-- The standard-normal shock produced by the `k`-th `randn_bm()` call. -/
noncomputable def shockAt (rand : ℕ → ℝ) (k : ℕ) : ℝ :=
  randn_bm (rand (2 * k)) (rand (2 * k + 1))

/-- The source expression `drift = (annualMean - 0.5 * Math.pow(annualVol, 2)) * timeStep` with
`annualMean = expectedReturn / 100`, `annualVol = volatility / 100`,
`timeStep = 1 / 12`. -/
noncomputable def mcDrift (expectedReturn volatility : ℝ) : ℝ :=
  (expectedReturn / 100 - 0.5 * (volatility / 100) ^ 2) * (1 / 12)

/-- The source expression `vol = annualVol * Math.sqrt(timeStep)`. -/
noncomputable def mcVol (volatility : ℝ) : ℝ :=
  (volatility / 100) * Real.sqrt (1 / 12)

/-- The value of `currentBalance` after `m` monthly steps of one simulated path:
`currentBalance = currentBalance * Math.exp(drift + vol * Z) +
monthlyContribution`, where `z m` is the shock used for step `m → m+1`. -/
noncomputable def mcBalance (drift vol C V0 : ℝ) (z : ℕ → ℝ) : ℕ → ℝ
  | 0 => V0
  | m + 1 => mcBalance drift vol C V0 z m * Real.exp (drift + vol * z m) + C

/-- One simulated path as pushed into `simPath`: the initial balance and
then a snapshot at every month divisible by 12, i.e. entry `y` is the
balance after `12 * y` months. -/
noncomputable def simPath (drift vol C V0 : ℝ) (z : ℕ → ℝ) (years : ℕ) :
    List ℝ :=
  (List.range (years + 1)).map (fun y => mcBalance drift vol C V0 z (12 * y))

/-- Embedding of `runSimulation`: `simulationCount` paths, consuming the draw stream
path-major. -/
noncomputable def runSimulation (initialPortfolio monthlyContribution
    expectedReturn volatility : ℝ) (years simulationCount : ℕ)
    (rand : ℕ → ℝ) : List (List ℝ) :=
  (List.range simulationCount).map (fun sim =>
    simPath (mcDrift expectedReturn volatility) (mcVol volatility)
      monthlyContribution initialPortfolio
      (fun m => shockAt rand (sim * (12 * years) + m)) years)

/-- JavaScript `.sort((a, b) => a - b)`: ascending numeric sort. -/
noncomputable def sortAsc (l : List ℝ) : List ℝ :=
  l.insertionSort (fun a b => a ≤ b)

/-- The index `Math.floor(length * p)` for the percentile fractions, computed in
exact arithmetic. -/
def pIdx (length : ℕ) (p : ℚ) : ℕ := (⌊(length : ℚ) * p⌋).toNat

/-- JavaScript `Math.round` on a real. -/
noncomputable def jsRoundR (x : ℝ) : ℤ := ⌊x + 1/2⌋

/-- One entry of the percentile chart, as pushed by the `chartData` memo:
the three percentiles are `Math.round`ed. -/
structure MCPoint where
  year : ℕ
  p10 : ℤ
  p50 : ℤ
  p90 : ℤ

/-- The sorted year-`year` snapshot list `yearValues` of the `chartData`
memo: `simulations.map(sim => sim[year])` sorted ascending (with `0`
standing in for the impossible out-of-range read `sim[year]`). -/
noncomputable def yearValues (simulations : List (List ℝ)) (year : ℕ) : List ℝ :=
  sortAsc (simulations.map (fun sim => (sim.get? year).getD 0))

/-- Embedding of `chartData`: for each `year = 0 .. years`, collect the year-`year`
snapshot of every path, sort ascending, and report the rounded elements at
indices `Math.floor(length * 0.1)`, `* 0.5`, `* 0.9`. -/
noncomputable def chartData (initialPortfolio monthlyContribution
    expectedReturn volatility : ℝ) (years simulationCount : ℕ)
    (rand : ℕ → ℝ) : List MCPoint :=
  (List.range (years + 1)).map (fun year =>
    ⟨year,
      jsRoundR ((((yearValues (runSimulation initialPortfolio monthlyContribution
          expectedReturn volatility years simulationCount rand) year)).get?
        (pIdx (yearValues (runSimulation initialPortfolio monthlyContribution
          expectedReturn volatility years simulationCount rand) year).length
          (1/10))).getD 0),
      jsRoundR ((((yearValues (runSimulation initialPortfolio monthlyContribution
          expectedReturn volatility years simulationCount rand) year)).get?
        (pIdx (yearValues (runSimulation initialPortfolio monthlyContribution
          expectedReturn volatility years simulationCount rand) year).length
          (1/2))).getD 0),
      jsRoundR ((((yearValues (runSimulation initialPortfolio monthlyContribution
          expectedReturn volatility years simulationCount rand) year)).get?
        (pIdx (yearValues (runSimulation initialPortfolio monthlyContribution
          expectedReturn volatility years simulationCount rand) year).length
          (9/10))).getD 0)⟩)

/-! ### Specification-side definitions for the Monte Carlo claims -/

/-- Monthly drift exactly as the specification writes it:
`d = (μ/100 − 0.5·(σ/100)²)/12`. -/
noncomputable def specDrift (mu sigma : ℝ) : ℝ :=
  (mu / 100 - 0.5 * (sigma / 100) ^ 2) / 12

/-- Monthly volatility as the specification writes it:
`v = (σ/100)·√(1/12)`. -/
noncomputable def specVol (sigma : ℝ) : ℝ :=
  (sigma / 100) * Real.sqrt (1 / 12)

/-- The path recurrence of the specification: start at `V₀` and evolve monthly
as `balance = balance · exp(d + v·Z) + C`. -/
noncomputable def specBalance (mu sigma C V0 : ℝ) (z : ℕ → ℝ) : ℕ → ℝ
  | 0 => V0
  | m + 1 =>
    specBalance mu sigma C V0 z m *
      Real.exp (specDrift mu sigma + specVol sigma * z m) + C

/-- The ascending sort of the `S` year-`year` snapshots of the
specification paths. -/
noncomputable def specSorted (V0 C mu sigma : ℝ) (years S : ℕ)
    (rand : ℕ → ℝ) (year : ℕ) : List ℝ :=
  sortAsc ((List.range S).map (fun sim =>
    specBalance mu sigma C V0
      (fun m => shockAt rand (sim * (12 * years) + m)) (12 * year)))

/-- The chart as the (amended) claim describes it: for each year collect
the snapshot of each path after `12·year` months of the specification
recurrence, sort the `S` values ascending, and report the rounded elements
at indices `⌊S·0.1⌋`, `⌊S·0.5⌋`, `⌊S·0.9⌋`. -/
noncomputable def specChartData (V0 C mu sigma : ℝ) (years S : ℕ)
    (rand : ℕ → ℝ) : List MCPoint :=
  (List.range (years + 1)).map (fun year =>
    ⟨year,
      jsRoundR (((specSorted V0 C mu sigma years S rand year).get?
        (pIdx S (1/10))).getD 0),
      jsRoundR (((specSorted V0 C mu sigma years S rand year).get?
        (pIdx S (1/2))).getD 0),
      jsRoundR (((specSorted V0 C mu sigma years S rand year).get?
        (pIdx S (9/10))).getD 0)⟩)

/-- The deterministic compounding path the specification names for the
`σ = 0` case: `balance = balance·exp((μ/100)/12) + C` each month. -/
noncomputable def detBalance (mu C V0 : ℝ) : ℕ → ℝ
  | 0 => V0
  | m + 1 => detBalance mu C V0 m * Real.exp ((mu / 100) / 12) + C

/-! ## Helper lemmas -/

lemma foldl_add_map_sum {α : Type} (f : α → ℚ) (l : List α) (init : ℚ) :
    l.foldl (fun sum x => sum + f x) init = init + (l.map f).sum := by
  induction l generalizing init with
  | nil => simp
  | cons a l ih => simp [ih, add_assoc]

/-! ## Theorems for the claims -/

/-- Claim C1: for every conversion function and every data state, the
totals record returned by `calculateTotals` satisfies
`netWorth = totalAssets − totalLiabilities`, where
`totalAssets = totalLiquidity + totalInvestments + totalCrypto` and
`totalLiabilities` is the converted sum of the current balances of the
liabilities. -/
theorem calculateTotals_netWorth_identity
    (convertFn : Option (ℚ → Option String → ℚ)) (data : FinancialData) :
    (calculateTotals convertFn data).netWorth
        = (calculateTotals convertFn data).totalAssets
          - (calculateTotals convertFn data).totalLiabilities
      ∧ (calculateTotals convertFn data).totalAssets
        = (calculateTotals convertFn data).totalLiquidity
          + (calculateTotals convertFn data).totalInvestments
          + (calculateTotals convertFn data).totalCrypto
      ∧ (calculateTotals convertFn data).totalLiabilities
        = liabilitiesConvertedSum (applyConvert convertFn) data.liabilities := by
  refine ⟨rfl, rfl, ?_⟩
  simp [calculateTotals, liabilitiesConvertedSum, foldl_add_map_sum]

/-- Claim C9: in `calculateTotals`, `totalInvestments` sums one converted
contribution per investment; an investment whose `currentValue` is absent
(`null`/`undefined`) or `0` contributes its converted `costBasis`, and one
with a non-zero `currentValue` contributes that converted `currentValue`. -/
theorem totalInvestments_costBasis_fallback
    (convertFn : Option (ℚ → Option String → ℚ)) (data : FinancialData)
    (i : Investment) (x : ℚ) (hx : x ≠ 0) :
    (calculateTotals convertFn data).totalInvestments
        = (data.investments.map (investmentContribution (applyConvert convertFn))).sum
      ∧ investmentContribution (applyConvert convertFn)
          ⟨none, i.costBasis, i.currency⟩
        = applyConvert convertFn i.costBasis i.currency
      ∧ investmentContribution (applyConvert convertFn)
          ⟨some 0, i.costBasis, i.currency⟩
        = applyConvert convertFn i.costBasis i.currency
      ∧ investmentContribution (applyConvert convertFn)
          ⟨some x, i.costBasis, i.currency⟩
        = applyConvert convertFn x i.currency := by
  refine ⟨?_, rfl, by simp [investmentContribution, jsOr],
    by simp [investmentContribution, jsOr, hx]⟩
  have h := foldl_add_map_sum (investmentContribution (applyConvert convertFn))
    data.investments 0
  simpa [calculateTotals, investmentContribution] using h

/-- Witness for C9 at a concrete state: one priced and one unpriced
investment. -/
theorem totalInvestments_costBasis_fallback_witness :
    (calculateTotals none ⟨[], [], [⟨some 3, 7, none⟩, ⟨none, 4, none⟩], [], []⟩).totalInvestments
        = (([⟨some 3, 7, none⟩, ⟨none, 4, none⟩] : List Investment).map
            (investmentContribution (applyConvert none))).sum
      ∧ investmentContribution (applyConvert none) ⟨none, (7 : ℚ), some "USD"⟩
        = applyConvert none 7 (some "USD")
      ∧ investmentContribution (applyConvert none) ⟨some 0, (7 : ℚ), some "USD"⟩
        = applyConvert none 7 (some "USD")
      ∧ investmentContribution (applyConvert none) ⟨some 5, (7 : ℚ), some "USD"⟩
        = applyConvert none 5 (some "USD") :=
  totalInvestments_costBasis_fallback none
    ⟨[], [], [⟨some 3, 7, none⟩, ⟨none, 4, none⟩], [], []⟩
    ⟨none, 7, some "USD"⟩ 5 (by norm_num)

/-- Claim C6: `fireNumber = annualExpenses / (SWR/100)`, and for `SWR = 4`
it equals `25 ×` annual expenses exactly. -/
theorem fireNumber_formula (e swr : ℚ) (h : 0 < swr) :
    fireNumber e swr = e / (swr / 100) ∧ fireNumber e 4 = 25 * e := by
  refine ⟨rfl, ?_⟩
  rw [fireNumber]
  field_simp
  ring

/-- Witness for C6 at annual expenses 40000 and SWR 4. -/
theorem fireNumber_formula_witness :
    fireNumber 40000 4 = 40000 / (4 / 100) ∧ fireNumber 40000 4 = 25 * 40000 :=
  fireNumber_formula 40000 4 (by norm_num)

/-- Claim C7 counterexample: with base currency EUR and a loaded rate table
storing rate `0` for USD, a rate for USD is present, yet the function falls
through the truthiness guard and returns the value unchanged — not
`value / rate` as the claim states (in the rational model `1 / 0 = 0 ≠ 1`;
in JavaScript `1 / 0` is `Infinity ≠ 1`). -/
theorem convertCurrency_zero_rate_counterexample :
    convertCurrency "EUR" (some (fun c => if c == "USD" then some 0 else none))
        1 (some "USD") = 1
      ∧ ((1 : ℚ) ≠ 1 / 0) := by
  refine ⟨by decide, by norm_num⟩

/-- Claim C7 (amended): `convertCurrency` returns `value / rate` when the
source differs from the base currency and a *non-zero* rate for it is
present; in every other case — source omitted, source equal to the base,
rate table absent, rate missing, or stored rate `0` — it returns the value
unchanged. -/
theorem convertCurrency_spec
    (base s s2 s3 : String) (table table2 table3 : String → Option ℚ)
    (rate v : ℚ)
    (h1 : s ≠ base) (h2 : table s = some rate) (h3 : rate ≠ 0)
    (h4 : table2 s2 = none) (h5 : table3 s3 = some 0) (h6 : s3 ≠ base) :
    convertCurrency base (some table) v (some s) = v / rate
      ∧ convertCurrency base (some table) v none = v
      ∧ convertCurrency base (some table) v (some base) = v
      ∧ convertCurrency base none v (some s) = v
      ∧ convertCurrency base (some table2) v (some s2) = v
      ∧ convertCurrency base (some table3) v (some s3) = v := by
  refine ⟨?_, rfl, ?_, ?_, ?_, ?_⟩
  · simp [convertCurrency, h1, h2, h3]
  · simp [convertCurrency]
  · simp [convertCurrency]
  · simp [convertCurrency, h4]
  · simp [convertCurrency, h5, h6]

/-- Witness for C7 at concrete currencies and tables covering every case. -/
theorem convertCurrency_spec_witness :
    convertCurrency "EUR" (some (fun _ => some 2)) 3 (some "USD") = 3 / 2
      ∧ convertCurrency "EUR" (some (fun _ => some 2)) 3 none = 3
      ∧ convertCurrency "EUR" (some (fun _ => some 2)) 3 (some "EUR") = 3
      ∧ convertCurrency "EUR" none 3 (some "USD") = 3
      ∧ convertCurrency "EUR" (some (fun _ => none)) 3 (some "GBP") = 3
      ∧ convertCurrency "EUR" (some (fun _ => some 0)) 3 (some "CHF") = 3 :=
  convertCurrency_spec "EUR" "USD" "GBP" "CHF"
    (fun _ => some 2) (fun _ => none) (fun _ => some 0) 2 3
    (by decide) rfl (by norm_num) rfl rfl (by decide)

/-- Claim C8: when the backend insert fails, `addInvestment`, `addCrypto`
and `takeSnapshot` surface exactly one failure toast, perform no local
state mutation, and trigger no refetch — the in-memory data state is
exactly what it was before the call. -/
theorem writeFailure_leaves_state_unchanged (fees : ℚ)
    (convertFn : Option (ℚ → Option String → ℚ)) (s : FinancialData) :
    (addInvestment true true fees s).state = s
      ∧ (addInvestment true true fees s).didRefetch = false
      ∧ (addInvestment true true fees s).toasts = ["Failed to save investment"]
      ∧ (addCrypto true true fees s).state = s
      ∧ (addCrypto true true fees s).didRefetch = false
      ∧ (addCrypto true true fees s).toasts = ["Failed to save crypto"]
      ∧ (takeSnapshot true true convertFn s).1.state = s
      ∧ (takeSnapshot true true convertFn s).1.didRefetch = false
      ∧ (takeSnapshot true true convertFn s).1.toasts = ["Failed to save snapshot"] :=
  ⟨rfl, rfl, rfl, rfl, rfl, rfl, rfl, rfl, rfl⟩

lemma ciStateAfter_eq_iterate (P C r : ℚ) (n : ℕ) :
    ciStateAfter P C r n = (ciMonthStep C r)^[n] (P, P) := by
  induction n with
  | zero => rfl
  | succ n ih => rw [ciStateAfter, ih, Function.iterate_succ_apply']

lemma ciStateAfter_zero_rate (P : ℚ) (n : ℕ) : ciStateAfter P 0 0 n = (P, P) := by
  induction n with
  | zero => rfl
  | succ n ih =>
    rw [ciStateAfter, ih, ciMonthStep]
    norm_num

/-- Claim C2 counterexample: at `P₀ = 1/2`, `C = 0`, `r = 0`, `N = 0` the
balance of the single record is `Math.round(0.5) = 1`, not the exact state
`1/2` reached from `P₀` by zero rounds of monthly steps, so the records do
not hold the exact simulated state. -/
theorem compoundInterest_rounding_counterexample :
    ((compoundInterestData (1/2) 0 0 0).map (fun q => (q.balance : ℚ))) = [1]
      ∧ ((1 : ℚ) ≠ ((ciMonthStep 0 0)^[12 * 0] ((1:ℚ)/2, (1:ℚ)/2)).1) := by
  constructor
  · norm_num [compoundInterestData, ciStateAfter, jsRound, List.range_succ, List.range_zero]
  · norm_num

/-- Claim C2 (amended): the calculator returns exactly `N+1` records; the
record for year `y` carries year `y` and the `Math.round`ed components of
the state reached from `(P₀, P₀)` by `12·y` monthly steps, each step
applying `balance = (balance + C)·(1 + r/100/12)` and adding `C` to the
contributed total. -/
theorem compoundInterestData_spec (P C r : ℚ) (N y : ℕ) (h : y ≤ N) :
    (compoundInterestData P C r N).length = N + 1
      ∧ (compoundInterestData P C r N).get? y
        = some ⟨y, jsRound ((ciMonthStep C r)^[12 * y] (P, P)).1,
            jsRound ((ciMonthStep C r)^[12 * y] (P, P)).2,
            jsRound (((ciMonthStep C r)^[12 * y] (P, P)).1
              - ((ciMonthStep C r)^[12 * y] (P, P)).2)⟩ := by
  constructor
  · simp [compoundInterestData]
  · have hy : y < N + 1 := Nat.lt_succ_of_le h
    simp [compoundInterestData, List.get?_eq_getElem?, List.getElem?_map,
      List.getElem?_range hy, ciStateAfter_eq_iterate]

/-- Witness for C2 at `P₀ = 1`, `C = 1`, `r = 12`, `N = 1`, year 1. -/
theorem compoundInterestData_spec_witness :
    (compoundInterestData 1 1 12 1).length = 1 + 1
      ∧ (compoundInterestData 1 1 12 1).get? 1
        = some ⟨1, jsRound ((ciMonthStep 1 12)^[12 * 1] ((1:ℚ), (1:ℚ))).1,
            jsRound ((ciMonthStep 1 12)^[12 * 1] ((1:ℚ), (1:ℚ))).2,
            jsRound (((ciMonthStep 1 12)^[12 * 1] ((1:ℚ), (1:ℚ))).1
              - ((ciMonthStep 1 12)^[12 * 1] ((1:ℚ), (1:ℚ))).2)⟩ :=
  compoundInterestData_spec 1 1 12 1 1 (by norm_num)

/-- Claim C3 counterexample: with `C = 0` and `r = 0` but the non-integer
principal `P₀ = 10000.5`, the reported balance is `10001`, not `P₀`:
the «balance equals P₀ exactly» clause fails for non-integer principals. -/
theorem compoundInterest_noninteger_principal_counterexample :
    ((compoundInterestData (20001/2) 0 0 0).map (fun q => (q.balance : ℚ))) = [10001]
      ∧ ((10001 : ℚ) ≠ 20001/2) := by
  constructor
  · norm_num [compoundInterestData, ciStateAfter, jsRound, List.range_succ, List.range_zero]
  · norm_num

/-- Claim C3 (amended): for `C = 0` and `r = 0` every yearly record reports
balance and contributed equal to `Math.round P₀` and interest `0`; in
particular, for the integer example `P₀ = 10000`, `N = 5`, every year of
the sequence reports balance exactly `10000`. -/
theorem compoundInterestData_zero_rate (P : ℚ) (N y : ℕ) (h : y ≤ N) :
    (compoundInterestData P 0 0 N).get? y = some ⟨y, jsRound P, jsRound P, 0⟩
      ∧ (compoundInterestData 10000 0 0 5).map (fun q => q.balance)
        = [10000, 10000, 10000, 10000, 10000, 10000] := by
  constructor
  · have hy : y < N + 1 := Nat.lt_succ_of_le h
    simp [compoundInterestData, List.get?_eq_getElem?, List.getElem?_map,
      List.getElem?_range hy, ciStateAfter_zero_rate, jsRound]
    norm_num
  · norm_num [compoundInterestData, ciStateAfter_zero_rate, jsRound,
      List.range_succ]

/-- Witness for C3 at `P₀ = 10000`, `N = 5`, year 2. -/
theorem compoundInterestData_zero_rate_witness :
    (compoundInterestData 10000 0 0 5).get? 2 = some ⟨2, jsRound 10000, jsRound 10000, 0⟩
      ∧ (compoundInterestData 10000 0 0 5).map (fun q => q.balance)
        = [10000, 10000, 10000, 10000, 10000, 10000] :=
  compoundInterestData_zero_rate 10000 5 2 (by norm_num)

lemma mem_filterPricesFor (ids : List String) (prices : List (String × ℚ))
    (a : String) (b : ℚ) (h : (a, b) ∈ filterPricesFor ids prices) : a ∈ ids := by
  obtain ⟨id, hid, hf⟩ := List.mem_filterMap.mp h
  split at hf
  · split at hf
    · exact Option.noConfusion hf
    · injection hf with h2
      cases h2
      exact hid
  · exact Option.noConfusion hf

/-- Claim C10: on a call with `forceRefresh = false` and a stored, parsed
cache entry younger than five minutes, `getBatchCryptoPrices` performs no
network fetch and returns the cached price map filtered to the requested
coin ids — every key of the returned map is one of the requested ids; the
dead unfiltered `return cached.prices` after the in-branch `return` is not
reachable, so the filtered map is what every such call returns. -/
theorem getBatchCryptoPrices_cache_hit (items : List CryptoRequestItem)
    (now : ℤ) (cached : CachedCryptoData) (fetch : FetchOutcome)
    (hfresh : now - cached.timestamp < CACHE_DURATION) :
    (getBatchCryptoPrices items false now (some (some cached)) fetch).didFetch = false
      ∧ (getBatchCryptoPrices items false now (some (some cached)) fetch).result
        = filterPricesFor (uniqueCoinIds items) cached.prices
      ∧ (getBatchCryptoPrices items false now (some (some cached)) fetch).result.all
          (fun p => (uniqueCoinIds items).contains p.1) = true := by
  by_cases hempty : (uniqueCoinIds items).isEmpty = true
  · have hnil : uniqueCoinIds items = [] := by simpa using hempty
    refine ⟨?_, ?_, ?_⟩ <;>
      simp [getBatchCryptoPrices, hempty, hnil, filterPricesFor]
  · refine ⟨?_, ?_, ?_⟩ <;>
      simp [getBatchCryptoPrices, hempty, hfresh]
    intro a b hab
    exact mem_filterPricesFor _ _ a b hab

/-- Witness for C10: one requested coin, a two-coin cache written at time
0, current time 1000 ms. -/
theorem getBatchCryptoPrices_cache_hit_witness :
    (getBatchCryptoPrices [⟨"BTC", some "bitcoin"⟩] false 1000
        (some (some ⟨0, [("bitcoin", 50000), ("ethereum", 3000)]⟩)) .failed).didFetch = false
      ∧ (getBatchCryptoPrices [⟨"BTC", some "bitcoin"⟩] false 1000
          (some (some ⟨0, [("bitcoin", 50000), ("ethereum", 3000)]⟩)) .failed).result
        = filterPricesFor (uniqueCoinIds [⟨"BTC", some "bitcoin"⟩])
            [("bitcoin", 50000), ("ethereum", 3000)]
      ∧ (getBatchCryptoPrices [⟨"BTC", some "bitcoin"⟩] false 1000
          (some (some ⟨0, [("bitcoin", 50000), ("ethereum", 3000)]⟩)) .failed).result.all
          (fun p => (uniqueCoinIds [⟨"BTC", some "bitcoin"⟩]).contains p.1) = true :=
  getBatchCryptoPrices_cache_hit [⟨"BTC", some "bitcoin"⟩] 1000
    ⟨0, [("bitcoin", 50000), ("ethereum", 3000)]⟩ .failed (by decide)

lemma mcVol_eq_specVol (sigma : ℝ) : mcVol sigma = specVol sigma := rfl

lemma mcDrift_eq_specDrift (mu sigma : ℝ) : mcDrift mu sigma = specDrift mu sigma := by
  unfold mcDrift specDrift
  ring

lemma mcBalance_eq_specBalance (mu sigma C V0 : ℝ) (z : ℕ → ℝ) (m : ℕ) :
    mcBalance (mcDrift mu sigma) (mcVol sigma) C V0 z m
      = specBalance mu sigma C V0 z m := by
  induction m with
  | zero => rfl
  | succ m ih =>
    simp only [mcBalance, specBalance]
    rw [ih, mcDrift_eq_specDrift, mcVol_eq_specVol]

/-- Claim C4 (amended): the simulated paths are exactly the
geometric-Brownian-motion paths of the specification — start at `V₀`, evolve by
`balance·exp(d + v·Z) + C` with `d = (μ/100 − 0.5·(σ/100)²)/12`,
`v = (σ/100)·√(1/12)` and Box–Muller shocks from consecutive uniform
draws — and the chart reports, for each year, the `Math.round`ed elements
at indices `⌊S·0.1⌋`, `⌊S·0.5⌋`, `⌊S·0.9⌋` of the ascending sort of the
`S` year-snapshots. -/
theorem monteCarlo_percentiles_spec (V0 C mu sigma : ℝ) (years S : ℕ)
    (rand : ℕ → ℝ) :
    runSimulation V0 C mu sigma years S rand
      = (List.range S).map (fun sim => (List.range (years + 1)).map (fun y =>
          specBalance mu sigma C V0
            (fun m => shockAt rand (sim * (12 * years) + m)) (12 * y)))
      ∧ chartData V0 C mu sigma years S rand
        = specChartData V0 C mu sigma years S rand := by
  have hrun : runSimulation V0 C mu sigma years S rand
      = (List.range S).map (fun sim => (List.range (years + 1)).map (fun y =>
          specBalance mu sigma C V0
            (fun m => shockAt rand (sim * (12 * years) + m)) (12 * y))) := by
    unfold runSimulation simPath
    simp only [mcBalance_eq_specBalance]
  refine ⟨hrun, ?_⟩
  unfold chartData specChartData
  apply List.map_congr_left
  intro year hyear
  have hy : year < years + 1 := List.mem_range.mp hyear
  have hyv : yearValues (runSimulation V0 C mu sigma years S rand) year
      = specSorted V0 C mu sigma years S rand year := by
    unfold yearValues specSorted
    rw [hrun, List.map_map]
    congr 1
    apply List.map_congr_left
    intro sim _
    simp [List.get?_eq_getElem?, List.getElem?_map, List.getElem?_range hy]
  have hlen : (yearValues (runSimulation V0 C mu sigma years S rand) year).length
      = S := by
    rw [hyv]
    unfold specSorted sortAsc
    rw [List.length_insertionSort, List.length_map, List.length_range]
  rw [hlen, hyv]

/-- Claim C4 counterexample: with one path (`S = 1`), `V₀ = 1/2`,
`C = μ = σ = 0` and horizon `0`, the year-0 sorted snapshot list is
`[1/2]` and its element at index `⌊1·0.1⌋ = 0` is `1/2`, but the chart
reports `p10 = p50 = p90 = Math.round(1/2) = 1 ≠ 1/2` — the reported
percentiles are the rounded elements, not the elements themselves. -/
theorem monteCarlo_rounded_counterexample :
    chartData (1/2) 0 0 0 0 1 (fun _ => 1/2) = [⟨0, 1, 1, 1⟩]
      ∧ ((sortAsc [((1:ℝ)/2)]).get? (pIdx 1 (1/10))).getD 0 = 1/2
      ∧ ((1 : ℝ) ≠ 1/2) := by
  refine ⟨?_, ?_, by norm_num⟩
  · norm_num [chartData, yearValues, runSimulation, simPath, mcBalance,
      sortAsc, pIdx, jsRoundR, List.range_succ, List.range_zero,
      List.insertionSort, List.orderedInsert]
  · norm_num [sortAsc, pIdx, List.insertionSort, List.orderedInsert]

lemma mcVol_zero : mcVol 0 = 0 := by
  unfold mcVol
  norm_num

lemma mcBalance_zero_vol (mu C V0 : ℝ) (z : ℕ → ℝ) (m : ℕ) :
    mcBalance (mcDrift mu 0) (mcVol 0) C V0 z m = detBalance mu C V0 m := by
  induction m with
  | zero => rfl
  | succ m ih =>
    simp only [mcBalance, detBalance]
    rw [ih]
    have hd : mcDrift mu 0 + mcVol 0 * z m = mu / 100 / 12 := by
      rw [mcVol_zero, zero_mul, add_zero]
      unfold mcDrift
      ring
    rw [hd]

lemma runSimulation_zero_vol (V0 C mu : ℝ) (years S : ℕ) (rand : ℕ → ℝ) :
    runSimulation V0 C mu 0 years S rand
      = List.replicate S ((List.range (years + 1)).map
          (fun y => detBalance mu C V0 (12 * y))) := by
  unfold runSimulation simPath
  simp only [mcBalance_zero_vol]
  rw [List.map_const', List.length_range]

lemma sortAsc_replicate (n : ℕ) (x : ℝ) :
    sortAsc (List.replicate n x) = List.replicate n x := by
  unfold sortAsc
  apply List.Sorted.insertionSort_eq
  exact List.pairwise_replicate.mpr (Or.inr le_rfl)

lemma pIdx_lt (S : ℕ) (hS : 0 < S) (p : ℚ) (hp1 : p < 1) : pIdx S p < S := by
  unfold pIdx
  have h1 : ⌊(S : ℚ) * p⌋ < (S : ℤ) := by
    rw [Int.floor_lt]
    push_cast
    calc (S : ℚ) * p < (S : ℚ) * 1 := by
          apply mul_lt_mul_of_pos_left hp1
          exact_mod_cast hS
    _ = S := mul_one _
  omega

/-- Claim C5 (amended): for `σ = 0` every simulated path equals the
deterministic compounding path `balance = balance·exp((μ/100)/12) + C`,
and for every year the chart reports
`p10 = p50 = p90 = Math.round` of the deterministic result. -/
theorem monteCarlo_zero_vol (V0 C mu : ℝ) (years S : ℕ) (rand : ℕ → ℝ)
    (y : ℕ) (hS : 0 < S) (hy : y ≤ years) :
    runSimulation V0 C mu 0 years S rand
      = List.replicate S ((List.range (years + 1)).map
          (fun yy => detBalance mu C V0 (12 * yy)))
      ∧ (chartData V0 C mu 0 years S rand).get? y
        = some ⟨y, jsRoundR (detBalance mu C V0 (12 * y)),
            jsRoundR (detBalance mu C V0 (12 * y)),
            jsRoundR (detBalance mu C V0 (12 * y))⟩ := by
  refine ⟨runSimulation_zero_vol V0 C mu years S rand, ?_⟩
  have hy1 : y < years + 1 := Nat.lt_succ_of_le hy
  have h10 := pIdx_lt S hS (1/10) (by norm_num)
  have h50 := pIdx_lt S hS (1/2) (by norm_num)
  have h90 := pIdx_lt S hS (9/10) (by norm_num)
  have hyv : yearValues (runSimulation V0 C mu 0 years S rand) y
      = List.replicate S (detBalance mu C V0 (12 * y)) := by
    unfold yearValues
    rw [runSimulation_zero_vol, List.map_replicate]
    have hpath : ((((List.range (years + 1)).map
        (fun yy => detBalance mu C V0 (12 * yy))).get? y).getD 0)
        = detBalance mu C V0 (12 * y) := by
      simp [List.get?_eq_getElem?, List.getElem?_map, List.getElem?_range hy1]
    rw [hpath, sortAsc_replicate]
  unfold chartData
  simp only [List.get?_eq_getElem?, List.getElem?_map, List.getElem?_range hy1,
    Option.map_some', hyv, List.length_replicate, List.getElem?_replicate,
    h10, h50, h90, if_true, Option.getD_some]

/-- Witness for C5 at `V₀ = 1`, `C = 0`, `μ = 0`, horizon 0, one path. -/
theorem monteCarlo_zero_vol_witness :
    runSimulation 1 0 0 0 0 1 (fun _ => 0)
      = List.replicate 1 ((List.range (0 + 1)).map
          (fun yy => detBalance 0 0 1 (12 * yy)))
      ∧ (chartData 1 0 0 0 0 1 (fun _ => 0)).get? 0
        = some ⟨0, jsRoundR (detBalance 0 0 1 (12 * 0)),
            jsRoundR (detBalance 0 0 1 (12 * 0)),
            jsRoundR (detBalance 0 0 1 (12 * 0))⟩ :=
  monteCarlo_zero_vol 1 0 0 0 1 (fun _ => 0) 0 (by norm_num) (by norm_num)

/-- Claim C5 counterexample: with `σ = 0`, one path, `V₀ = 3/2`, `C = 0`,
`μ = 0`, horizon 0, the deterministic compounding result for year 0 is
`3/2`, all reported percentiles agree — but they equal
`Math.round(3/2) = 2`, not the deterministic result itself. -/
theorem monteCarlo_zero_vol_counterexample :
    ((chartData (3/2) 0 0 0 0 1 (fun _ => 1/2)).map (fun pt => (pt.p50 : ℝ))) = [2]
      ∧ ((2 : ℝ) ≠ detBalance 0 0 (3/2) 0) := by
  constructor
  · norm_num [chartData, yearValues, runSimulation, simPath, mcBalance,
      sortAsc, pIdx, jsRoundR, List.range_succ, List.range_zero,
      List.insertionSort, List.orderedInsert]
  · norm_num [detBalance]

end WealthCompass
